import Mathlib

/-!
Shallow embedding of the ingestion/aggregation core of
`freight_billing_tracker.py` (class `FreightBillingChecker`).

Modelling conventions:
* Python floats (costs, billable amounts, weights) are modelled as exact
  rationals.  We use a purpose-built normalised rational type `Q` whose
  arithmetic is structurally recursive (fuel-driven gcd), so that every
  definition in this file evaluates inside the Lean kernel.
* pandas `NaN`/`NaT` is modelled with `Option` (`none` = missing).
* Timestamps and dates are abstract `Nat` instants; the ingestion time is
  passed in as a parameter `now`.
* The persisted Excel tables are modelled as in-memory lists; the
  load/save round-trips through `pd.read_excel`/`to_excel` are identity on
  this model (I/O failures are out of scope of the claims).
* Cell string rendering of numeric/date cells (Python `str(...)`) is
  abstracted to a placeholder; no claim depends on it.  A `blank` cell
  renders to "nan" exactly as `str(float('nan'))` does.
-/

/-- Fuel-driven Euclidean algorithm; `gcdFuel (m+1) m n` computes `gcd m n`
(structural recursion on the fuel, hence kernel-reducible). -/
def gcdFuel : Nat → Nat → Nat → Nat
  | 0, _, n => n
  | fuel + 1, m, n => if m = 0 then n else gcdFuel fuel (n % m) m

/-- Greatest common divisor via `gcdFuel`; the fuel `m + 1` always suffices
because the first argument strictly decreases. -/
def natGcd (m n : Nat) : Nat := gcdFuel (m + 1) m n

/-- Exact rational number in lowest terms (denominator positive).  Models the
Python floats of the tracker. -/
structure Q where
  num : Int
  den : Nat
deriving DecidableEq

/-- Build a normalised rational from an integer numerator and a natural
denominator. -/
def qNorm (n : Int) (d : Nat) : Q :=
  if d = 0 then ⟨0, 1⟩
  else
    let g := natGcd n.natAbs d
    ⟨n / (g : Int), d / g⟩

/-- Build a rational from two integers, moving the sign to the numerator. -/
def qMkInt (n d : Int) : Q :=
  if d < 0 then qNorm (-n) (-d).toNat else qNorm n d.toNat

instance : OfNat Q n := ⟨⟨(n : Int), 1⟩⟩

def qAdd (a b : Q) : Q := qNorm (a.num * (b.den : Int) + b.num * (a.den : Int)) (a.den * b.den)

def qSub (a b : Q) : Q := qNorm (a.num * (b.den : Int) - b.num * (a.den : Int)) (a.den * b.den)

def qMul (a b : Q) : Q := qNorm (a.num * b.num) (a.den * b.den)

def qDiv (a b : Q) : Q := qMkInt (a.num * (b.den : Int)) (b.num * (a.den : Int))

instance : Add Q := ⟨qAdd⟩

instance : Sub Q := ⟨qSub⟩

instance : Mul Q := ⟨qMul⟩

instance : Div Q := ⟨qDiv⟩

/-- Strict comparison by cross multiplication (denominators are positive). -/
def qLtB (a b : Q) : Bool := a.num * (b.den : Int) < b.num * (a.den : Int)

/-- Floor of a rational (`Int.fdiv` rounds towards minus infinity). -/
def qFloor (a : Q) : Int := Int.fdiv a.num (a.den : Int)

/-- Round to the nearest integer, ties to even — the rounding used by
`numpy`/pandas `.round`. -/
def roundHalfEven (a : Q) : Int :=
  let f := qFloor a
  let frac := qSub a ⟨f, 1⟩
  if qLtB frac ⟨1, 2⟩ then f
  else if qLtB ⟨1, 2⟩ frac then f + 1
  else if f % 2 = 0 then f else f + 1

/-- pandas `.round(2)`: round to two decimal places, ties to even. -/
def roundTo2 (a : Q) : Q := qDiv ⟨roundHalfEven (qMul a ⟨100, 1⟩), 1⟩ ⟨100, 1⟩

/-- Sum of a list of rationals (pandas column `sum`). -/
def sumQ (l : List Q) : Q := l.foldr qAdd 0

/-- Lexicographic comparison of char lists by code point, mirroring Python
string comparison. -/
def charListLt : List Char → List Char → Bool
  | [], [] => false
  | [], _ :: _ => true
  | _ :: _, [] => false
  | a :: as, b :: bs => a.toNat < b.toNat || (a.toNat = b.toNat && charListLt as bs)

/-- Python `a < b` on strings, by code points. -/
def strLtB (a b : String) : Bool := charListLt a.data b.data

/-- Python `name.endswith(suffix)` (computed on the underlying char lists). -/
def strEndsWith (s suffix : String) : Bool := suffix.data.isSuffixOf s.data

def isSpaceChar (c : Char) : Bool := c = ' ' || c = '\t' || c = '\n' || c = '\r'

/-- Python `str.strip()`. -/
def pyStrip (s : String) : String :=
  ⟨((s.data.dropWhile isSpaceChar).reverse.dropWhile isSpaceChar).reverse⟩

def lowerChar (c : Char) : Char := c.toLower

/-- Header normalisation used by the column auto-detection:
`col.lower().strip().replace(' ', '').replace('_', '')`.  Removing every
space subsumes the strip (the synonym table and modelled headers contain no
other whitespace), so the same function also models the variant
normalisation `v.lower().replace(' ', '').replace('_', '')`. -/
def normalizeHeader (s : String) : String :=
  ⟨(s.data.map lowerChar).filter (fun c => !(c = ' ' || c = '_'))⟩

/-- One spreadsheet cell.  `blank` models `NaN`/missing; numeric-looking
values are `num` (so `pd.to_numeric(·, errors='coerce')` succeeds exactly on
them); date-like values are `date`. -/
inductive Cell where
  | num (q : Q)
  | str (s : String)
  | date (d : Nat)
  | blank
deriving DecidableEq

/-- pandas `isnull` on a cell. -/
def cellNull : Cell → Bool
  | .blank => true
  | _ => false

/-- Models `pd.to_numeric(cell, errors='coerce')`. -/
def toNumeric : Cell → Option Q
  | .num q => some q
  | _ => none

/-- Models `pd.to_datetime(cell, errors='coerce')`. -/
def toDateTime : Cell → Option Nat
  | .date d => some d
  | _ => none

/-- Python `str(cell)`.  String cells pass through, a missing value renders
as "nan"; the decimal rendering of numeric/date cells is abstracted (no
claim depends on it). -/
def cellStr : Cell → String
  | .str s => s
  | .blank => "nan"
  | .num _ => "<num>"
  | .date _ => "<date>"

/-- A raw file parsed into a header row and cell rows (a pandas DataFrame).
Rows are position-aligned with `headers`. -/
structure RawFrame where
  headers : List String
  rows : List (List Cell)
deriving DecidableEq

/-- Cell lookup `row.get(name, default)` resolved through the header list: index of the
first column called `name`. -/
def lookupCell (hs : List String) (cells : List Cell) (name : String) : Option Cell :=
  match hs.findIdx? (fun h => h = name) with
  | some i => some (cells.getD i .blank)
  | none => none

/-- Models `str(row.get(name, '')).strip()`. -/
def getStrField (hs : List String) (cells : List Cell) (name : String) : String :=
  match lookupCell hs cells name with
  | some c => pyStrip (cellStr c)
  | none => ""

/-- Models `pd.to_numeric(row.get(name, 0), errors='coerce')` (default `0` when the
column is absent). -/
def getNumField0 (hs : List String) (cells : List Cell) (name : String) : Option Q :=
  match lookupCell hs cells name with
  | some c => toNumeric c
  | none => some 0

/-- Models `pd.to_numeric(row.get(name), errors='coerce')` (default `None`). -/
def getNumFieldNone (hs : List String) (cells : List Cell) (name : String) : Option Q :=
  match lookupCell hs cells name with
  | some c => toNumeric c
  | none => none

/-- Models `pd.to_datetime(row.get(name), errors='coerce')`. -/
def getDateField (hs : List String) (cells : List Cell) (name : String) : Option Nat :=
  match lookupCell hs cells name with
  | some c => toDateTime c
  | none => none

/-- The declarative synonym table (`standard_columns` local in both
`process_file_from_path` and `process_carrier_file`), in source order.  The
`process_carrier_file` copy has a variant written `'   invoice amount'`;
normalisation strips the spaces, so both copies induce the same map. -/
def standard_columns : List (String × List String) :=
  [("client",
    ["client", "customer", "customer_name", "account", "consignee",
     "shipper", "company", "client_name", "customer name", "account name"]),
   ("tracking_number",
    ["tracking", "tracking_number", "tracking_id", "awb", "pro",
     "tracking number", "tracking id", "shipment id", "reference"]),
   ("service_type",
    ["service", "service_type", "service_level", "service type",
     "service level", "shipping service", "delivery service"]),
   ("cost",
    ["cost", "freight_cost", "shipping_cost", "carrier_charge",
     "total_cost", "total cost", "freight cost", "shipping cost",
     "carrier cost", "transport cost", "delivery cost"]),
   ("billable_amount",
    ["billable", "billable_amount", "revenue", "charge_amount",
     "bill_amount", "invoice_amount", "billable amount", "bill amount",
     "invoice amount", "charge amount", "total billable", "total_billable"]),
   ("weight",
    ["weight", "package_weight", "total_weight", "package weight",
     "total weight", "shipment weight", "gross weight"]),
   ("zone",
    ["zone", "delivery_zone", "shipping_zone", "delivery zone",
     "shipping zone", "service zone"]),
   ("ship_date",
    ["date", "ship_date", "pickup_date", "service_date", "ship date",
     "pickup date", "service date", "shipment date", "send date"]),
   ("delivery_date",
    ["delivery_date", "delivered_date", "delivery", "delivery date",
     "delivered date", "arrival date", "completion date"])]

/-- Insert/overwrite a key in an association list, preserving position on
overwrite — Python dict assignment `column_map[original_col] = standard`. -/
def assocSet (m : List (String × String)) (k v : String) : List (String × String) :=
  if m.any (fun p => p.1 = k) then
    m.map (fun p => if p.1 = k then (k, v) else p)
  else m ++ [(k, v)]

/-- The auto-detection loop: for each canonical field (in table order) scan
the columns (in frame order) for the first one whose normalised name equals
a normalised variant, and record `original_col ↦ standard`. -/
def autoColumnMap (headers : List String) : List (String × String) :=
  standard_columns.foldl
    (fun m p =>
      match headers.find? (fun h =>
        (p.2.map normalizeHeader).contains (normalizeHeader h)) with
      | some h => assocSet m h p.1
      | none => m)
    []

/-- pandas `df.rename(columns=m)`: every header present in the map is replaced. -/
def renameHeaders (m : List (String × String)) (headers : List String) : List String :=
  headers.map (fun h =>
    match m.lookup h with
    | some std => std
    | none => h)

/-- Computes `[col for col in required_cols if col not in df.columns]` with
`required_cols = ['client', 'cost', 'billable_amount']`. -/
def requiredMissing (headers : List String) : List String :=
  (["client", "cost", "billable_amount"]).filter (fun c => !(headers.contains c))

/-- Column-index selection on a frame (used for the dropna/95% steps). -/
def selectCols (f : RawFrame) (keep : Nat → Bool) : RawFrame :=
  let idx := (List.range f.headers.length).filter keep
  { headers := idx.filterMap (fun j => f.headers.get? j),
    rows := f.rows.map (fun r => idx.map (fun j => r.getD j .blank)) }

/-- Number of null cells in column `j`. -/
def colNullCount (rows : List (List Cell)) (j : Nat) : Nat :=
  (rows.filter (fun r => cellNull (r.getD j .blank))).length

/-- The DataFrame cleanup performed by both ingestion paths:
`df.dropna(axis=1, how='all')`, then `df.dropna(axis=0, how='all')`, then
drop columns whose null fraction is not `< 0.95`
(`null_percentages[null_percentages < null_threshold]`; on a frame with zero
rows the pandas mean is NaN, so every column is dropped). -/
def cleanFrame (f : RawFrame) : RawFrame :=
  let f1 := selectCols f (fun j =>
    f.rows.isEmpty || !(f.rows.all (fun r => cellNull (r.getD j .blank))))
  let f2 : RawFrame :=
    { f1 with rows := f1.rows.filter (fun r => !(r.all cellNull)) }
  let n := f2.rows.length
  selectCols f2 (fun j => 100 * colNullCount f2.rows j < 95 * n)

/-- The canonical 16-column schema (`STANDARD_COLUMNS`). -/
def STANDARD_COLUMNS : List String :=
  ["carrier", "client", "tracking_number", "service_type",
   "cost", "billable_amount", "weight", "zone",
   "ship_date", "delivery_date", "invoice_status",
   "invoice_number", "invoice_date", "cycle_period",
   "upload_timestamp", "file_hash"]

/-- A canonical shipment record — one row of the shipment store under the
current schema.  `cost`/`billable_amount` are `Option` because the
standardiser can produce `NaN` before the validity filter removes it. -/
structure ShipmentRecord where
  carrier : String
  client : String
  tracking_number : String
  service_type : String
  cost : Option Q
  billable_amount : Option Q
  weight : Option Q
  zone : String
  ship_date : Option Nat
  delivery_date : Option Nat
  invoice_status : String
  invoice_number : String
  invoice_date : Option Nat
  cycle_period : String
  upload_timestamp : Nat
  file_hash : String
deriving DecidableEq

/-- The per-row standardisation loop body (`standard_row = {...}`), shared
verbatim by both ingestion paths. -/
def standardizeRow (carrier_name cycle_period : String) (now : Nat) (hash : String)
    (hs : List String) (cells : List Cell) : ShipmentRecord :=
  { carrier := carrier_name,
    client := getStrField hs cells "client",
    tracking_number := getStrField hs cells "tracking_number",
    service_type := getStrField hs cells "service_type",
    cost := getNumField0 hs cells "cost",
    billable_amount := getNumField0 hs cells "billable_amount",
    weight := getNumFieldNone hs cells "weight",
    zone := getStrField hs cells "zone",
    ship_date := getDateField hs cells "ship_date",
    delivery_date := getDateField hs cells "delivery_date",
    invoice_status := "Ready to Bill",
    invoice_number := "",
    invoice_date := getDateField hs cells "invoice_date",
    cycle_period := cycle_period,
    upload_timestamp := now,
    file_hash := hash }

/-- The post-processing filter, applied in source order:
`dropna(subset=['cost', 'billable_amount'])`, then keep rows with
`cost != 0 or billable_amount != 0`. -/
def filterValid (l : List ShipmentRecord) : List ShipmentRecord :=
  (l.filter (fun r => r.cost.isSome && r.billable_amount.isSome)).filter
    (fun r => !(r.cost == some 0) || !(r.billable_amount == some 0))

/-- The persisted shipment store as a DataFrame: the set of columns the
persisted sheet actually has (`existing_shipments.columns` — possibly an
older, narrower schema) plus its rows.  A field whose column is missing from
`cols` is ignored by the code until back-filled. -/
structure Frame where
  cols : List String
  rows : List ShipmentRecord
deriving DecidableEq

/-- The per-column legacy-schema defaulting loop body, shared by both
ingestion paths: copy a column that exists, otherwise back-fill `NaT` for
dates, `0` for numerics and `''` for everything else.  (The code assigns
`''` to a missing `upload_timestamp` column; on the abstract timestamp type
that default is modelled as `0`.) -/
def backfillRow (cols : List String) (r : ShipmentRecord) : ShipmentRecord :=
  { carrier := if cols.contains "carrier" then r.carrier else "",
    client := if cols.contains "client" then r.client else "",
    tracking_number := if cols.contains "tracking_number" then r.tracking_number else "",
    service_type := if cols.contains "service_type" then r.service_type else "",
    cost := if cols.contains "cost" then r.cost else some 0,
    billable_amount := if cols.contains "billable_amount" then r.billable_amount else some 0,
    weight := if cols.contains "weight" then r.weight else some 0,
    zone := if cols.contains "zone" then r.zone else "",
    ship_date := if cols.contains "ship_date" then r.ship_date else none,
    delivery_date := if cols.contains "delivery_date" then r.delivery_date else none,
    invoice_status := if cols.contains "invoice_status" then r.invoice_status else "",
    invoice_number := if cols.contains "invoice_number" then r.invoice_number else "",
    invoice_date := if cols.contains "invoice_date" then r.invoice_date else none,
    cycle_period := if cols.contains "cycle_period" then r.cycle_period else "",
    upload_timestamp := if cols.contains "upload_timestamp" then r.upload_timestamp else 0,
    file_hash := if cols.contains "file_hash" then r.file_hash else "" }

/-- Builds `existing_standardized`: the whole store forced into the 16-column
schema by the per-column loop. -/
def standardizeExisting (f : Frame) : List ShipmentRecord :=
  f.rows.map (backfillRow f.cols)

/-- One row of the billing checklist (a `BillingAggregate`).  The sheet is
created with an `'invoice number'` column (with a space) which
`update_billing_checklist` fills with `''`; `mark_client_billed` instead
assigns the distinct column name `'invoice_number'`.  Both columns are kept
as separate fields (`invoice_number_sp` is the space-named one); a column a
row never received is modelled by its default value. -/
structure ChecklistRow where
  client : String
  carrier : String
  cycle_period : String
  shipment_count : Nat
  total_cost : Q
  total_billable : Q
  profit : Q
  profit_margin : Q
  invoice_status : String
  invoice_number_sp : String
  invoice_date : Option Nat
  notes : String
  invoice_number : String
deriving DecidableEq

/-- One row of the upload log (an `UploadLedgerEntry`). -/
structure LedgerEntry where
  filename : String
  file_hash : String
  upload_date : Nat
  records_imported : Nat
  carrier : String
  cycle_period : String
  status : String
  deleted_date : Option Nat
  source_path : Option String
deriving DecidableEq

/-- The persisted state: the three Excel-backed tables. -/
structure SysState where
  shipments : Frame
  checklist : List ChecklistRow
  uploadLog : List LedgerEntry
deriving DecidableEq

/-- Embeds `check_existing_data`: does the store already hold records for this
(carrier, cycle_period) key, and how many. -/
def check_existing_data (carrier_name cycle_period : String) (st : SysState) : Bool × Nat :=
  let n := (st.shipments.rows.filter (fun r =>
    r.carrier = carrier_name && r.cycle_period = cycle_period)).length
  (decide (n ≠ 0), n)

/-- Embeds `remove_existing_data`: drop the key's rows from the shipment store and
from the billing checklist.  The upload log is not touched. -/
def remove_existing_data (carrier_name cycle_period : String) (st : SysState) : SysState :=
  { shipments :=
      { st.shipments with rows := st.shipments.rows.filter (fun r =>
          !(r.carrier = carrier_name && r.cycle_period = cycle_period)) },
    checklist := st.checklist.filter (fun c =>
      !(c.carrier = carrier_name && c.cycle_period = cycle_period)),
    uploadLog := st.uploadLog }

/-- Aggregation key of a batch record: (client, carrier, cycle_period). -/
def recKey (r : ShipmentRecord) : String × String × String :=
  (r.client, r.carrier, r.cycle_period)

/-- Aggregation key of a checklist row. -/
def aggKeyOf (c : ChecklistRow) : String × String × String :=
  (c.client, c.carrier, c.cycle_period)

/-- Lexicographic order on aggregation keys by Python string comparison
(pandas `groupby` iterates groups in sorted key order). -/
def keyLe (a b : String × String × String) : Bool :=
  strLtB a.1 b.1 || (a.1 = b.1 && (strLtB a.2.1 b.2.1 ||
    (a.2.1 = b.2.1 && (strLtB a.2.2 b.2.2 || a.2.2 = b.2.2))))

/-- The distinct group keys of a batch, in sorted order (pandas
`groupby(['client', 'carrier', 'cycle_period'])` with default sorting; the
keys are distinct, so any correct sort yields this list). -/
def groupKeys (batch : List ShipmentRecord) : List (String × String × String) :=
  List.insertionSort (fun a b => keyLe a b = true) (batch.map recKey).dedup

/-- Per-group `'tracking_number': 'count'`.  The standardiser stores the
tracking number as a (possibly empty) string, never null, so the pandas
non-null count is the group size. -/
def grpCount (batch : List ShipmentRecord) (k : String × String × String) : Nat :=
  (batch.filter (fun r => recKey r == k)).length

/-- Per-group `'cost': 'sum'`. -/
def grpCost (batch : List ShipmentRecord) (k : String × String × String) : Q :=
  sumQ ((batch.filter (fun r => recKey r == k)).map (fun r => r.cost.getD 0))

/-- Per-group `'billable_amount': 'sum'`. -/
def grpBill (batch : List ShipmentRecord) (k : String × String × String) : Q :=
  sumQ ((batch.filter (fun r => recKey r == k)).map (fun r => r.billable_amount.getD 0))

/-- A fresh checklist entry for a new key, exactly as the summary row is
built: totals from the group, `profit = total_billable - total_cost`,
`profit_margin = round(profit / total_billable * 100, 2)`, status
`'Ready to Bill'`, empty `'invoice number'`, `invoice_date = None`, empty
notes.  (With `total_billable = 0` the Python float division yields
inf/NaN; on `Q` division by zero yields `0` — every claim guards this case
behind `total_billable ≠ 0`.) -/
def mkAggRow (k : String × String × String) (cnt : Nat) (c b : Q) : ChecklistRow :=
  { client := k.1, carrier := k.2.1, cycle_period := k.2.2,
    shipment_count := cnt, total_cost := c, total_billable := b,
    profit := qSub b c,
    profit_margin := roundTo2 (qMul (qDiv (qSub b c) b) ⟨100, 1⟩),
    invoice_status := "Ready to Bill", invoice_number_sp := "",
    invoice_date := none, notes := "", invoice_number := "" }

/-- One iteration of the `for _, row in summary.iterrows()` loop: if no
checklist row has the key, append the fresh entry; otherwise add the group
sums to the totals of the *first* matching row and write the result (and the
recomputed profit and margin) to every matching row — the `.loc[mask]`
assignment semantics. -/
def applyGroup (batch : List ShipmentRecord) (cl : List ChecklistRow)
    (k : String × String × String) : List ChecklistRow :=
  let cnt := grpCount batch k
  let c := grpCost batch k
  let b := grpBill batch k
  match cl.find? (fun row => aggKeyOf row == k) with
  | none => cl ++ [mkAggRow k cnt c b]
  | some fst =>
      let cnt' := fst.shipment_count + cnt
      let c' := qAdd fst.total_cost c
      let b' := qAdd fst.total_billable b
      cl.map (fun row =>
        if aggKeyOf row == k then
          { row with
            shipment_count := cnt',
            total_cost := c',
            total_billable := b',
            profit := qSub b' c',
            profit_margin := roundTo2 (qMul (qDiv (qSub b' c') b') ⟨100, 1⟩) }
        else row)

/-- Embeds `update_billing_checklist`: group the new batch by (client, carrier,
cycle_period) and fold the additive update over the groups. -/
def update_billing_checklist (new_shipments : List ShipmentRecord)
    (checklist : List ChecklistRow) : List ChecklistRow :=
  (groupKeys new_shipments).foldl (applyGroup new_shipments) checklist

/-- A new upload-log row as appended by both ingestion paths
(status `'Active'`, no deleted date; `source_path` is the file path for the
folder-scan path and `None` for manual upload). -/
def mkLogEntry (filename hash : String) (now : Nat) (records_imported : Nat)
    (carrier_name cycle_period : String) (source_path : Option String) : LedgerEntry :=
  { filename := filename, file_hash := hash, upload_date := now,
    records_imported := records_imported, carrier := carrier_name,
    cycle_period := cycle_period, status := "Active", deleted_date := none,
    source_path := source_path }

/-- Everything the ingestion reads from a file once it is open: the name,
the parsed DataFrame and the MD5 of the raw bytes (`get_file_hash`). -/
structure InputFile where
  filename : String
  frame : RawFrame
  hash : String
deriving DecidableEq

/-- The structured failure outcomes of an ingestion (`return False, msg`).
`pythonNameError` is the caught `NameError` raised when the legacy-schema
defaulting loop dereferences `existing_standardized` while the store is
empty (`Error processing file: name 'existing_standardized' is not
defined`). -/
inductive IngestError where
  | dataAlreadyExists (existingCount : Nat)
  | unsupportedFormat
  | missingColumns (missing available : List String)
  | noValidRecords
  | pythonNameError
deriving DecidableEq

deriving instance DecidableEq for Except

/-- Result of an ingestion attempt: the state as left behind and either the
number of records imported or the failure. -/
structure Outcome where
  state : SysState
  result : Except IngestError Nat
deriving DecidableEq

/-- Extension check of the path ingestion: it accepts `.xlsx`, `.xls` and `.csv`. -/
def supportedFormatPath (name : String) : Bool :=
  strEndsWith name ".xlsx" || strEndsWith name ".xls" || strEndsWith name ".csv"

/-- Extension check of the manual upload: it accepts only `.xlsx` and `.csv`. -/
def supportedFormatUpload (name : String) : Bool :=
  strEndsWith name ".xlsx" || strEndsWith name ".csv"

/-- The combine step of `process_file_from_path` (correctly indented): when
the store is non-empty, force it into the standard structure and prepend it
to the new batch. -/
def combineAppend (store : Frame) (batch : List ShipmentRecord) : List ShipmentRecord :=
  if store.rows.isEmpty then batch else standardizeExisting store ++ batch

/-- The combine step of `process_carrier_file`, with the source's
indentation taken literally.  The per-column defaulting `for` loop sits
*outside* `if not existing_shipments.empty:`, so on an empty store its first
iteration dereferences the unbound name `existing_standardized` and raises
`NameError`.  On a non-empty store the loop builds `existing_standardized`
and assigns `combined_shipments = pd.concat([...])` on every iteration —
but the `else:` clause below the loop body attaches to the `for` statement
(a Python `for…else`), runs unconditionally after normal loop completion,
and rebinds `combined_shipments = standardized_df`: only the new batch is
saved. -/
def carrierCombine (store : Frame) (batch : List ShipmentRecord) :
    Except IngestError (List ShipmentRecord) :=
  if store.rows.isEmpty then .error .pythonNameError
  else
    let _combined := standardizeExisting store ++ batch
    .ok batch

/-- Embeds `process_file_from_path(file_path, carrier_name, cycle_period,
replace_existing)`.  The model starts after the file has been read (the
file-not-found early return, the size bookkeeping and the
`config['processed_files']` append carry no claim content). -/
def process_file_from_path (st : SysState) (file : InputFile)
    (carrier_name cycle_period : String) (replace_existing : Bool) (now : Nat) : Outcome :=
  let he := check_existing_data carrier_name cycle_period st
  if he.1 && !replace_existing then ⟨st, .error (.dataAlreadyExists he.2)⟩
  else
    let st1 := if replace_existing && he.1
      then remove_existing_data carrier_name cycle_period st else st
    if !(supportedFormatPath file.filename) then ⟨st1, .error .unsupportedFormat⟩
    else
      let f := cleanFrame file.frame
      let hs := renameHeaders (autoColumnMap f.headers) f.headers
      let missing := requiredMissing hs
      if !missing.isEmpty then ⟨st1, .error (.missingColumns missing hs)⟩
      else
        let batch := filterValid (f.rows.map
          (standardizeRow carrier_name cycle_period now file.hash hs))
        if batch.isEmpty then ⟨st1, .error .noValidRecords⟩
        else
          let combined := combineAppend st1.shipments batch
          let entry := mkLogEntry file.filename file.hash now batch.length
            carrier_name cycle_period (some file.filename)
          ⟨{ shipments := ⟨STANDARD_COLUMNS, combined⟩,
             checklist := update_billing_checklist batch st1.checklist,
             uploadLog := st1.uploadLog ++ [entry] }, .ok batch.length⟩

/-- Embeds `process_carrier_file(file, carrier_name, cycle_period, column_mapping,
replace_existing)` — the manual-upload path.  Identical up to: the optional
manual `column_mapping` rename applied before auto-detection, the `.xls`
extension not being accepted, `source_path = None` in the log entry, and the
combine step `carrierCombine` with the mis-indented defaulting loop.  A
`column_mapping=None` call is modelled by the empty mapping. -/
def process_carrier_file (st : SysState) (file : InputFile)
    (carrier_name cycle_period : String) (column_mapping : List (String × String))
    (replace_existing : Bool) (now : Nat) : Outcome :=
  let he := check_existing_data carrier_name cycle_period st
  if he.1 && !replace_existing then ⟨st, .error (.dataAlreadyExists he.2)⟩
  else
    let st1 := if replace_existing && he.1
      then remove_existing_data carrier_name cycle_period st else st
    if !(supportedFormatUpload file.filename) then ⟨st1, .error .unsupportedFormat⟩
    else
      let f := cleanFrame file.frame
      let hs0 := renameHeaders column_mapping f.headers
      let hs := renameHeaders (autoColumnMap hs0) hs0
      let missing := requiredMissing hs
      if !missing.isEmpty then ⟨st1, .error (.missingColumns missing hs)⟩
      else
        let batch := filterValid (f.rows.map
          (standardizeRow carrier_name cycle_period now file.hash hs))
        if batch.isEmpty then ⟨st1, .error .noValidRecords⟩
        else
          match carrierCombine st1.shipments batch with
          | .error e => ⟨st1, .error e⟩
          | .ok combined =>
              let entry := mkLogEntry file.filename file.hash now batch.length
                carrier_name cycle_period none
              ⟨{ shipments := ⟨STANDARD_COLUMNS, combined⟩,
                 checklist := update_billing_checklist batch st1.checklist,
                 uploadLog := st1.uploadLog ++ [entry] }, .ok batch.length⟩

/-- Embeds `mark_client_billed(client, cycle_period, invoice_number, invoice_date,
notes)`: set Billed plus invoice metadata on every checklist row and every
shipment row matching (client, cycle_period); `invoice_date` defaults to the
current date. -/
def mark_client_billed (st : SysState) (client cycle_period invoice_number : String)
    (invoice_date : Option Nat) (notes : String) (now : Nat) : SysState :=
  let d := invoice_date.getD now
  { shipments :=
      { st.shipments with rows := st.shipments.rows.map (fun r =>
          if r.client = client && r.cycle_period = cycle_period then
            { r with
              invoice_status := "Billed",
              invoice_number := invoice_number,
              invoice_date := some d }
          else r) },
    checklist := st.checklist.map (fun c =>
      if c.client = client && c.cycle_period = cycle_period then
        { c with
          invoice_status := "Billed",
          invoice_number := invoice_number,
          invoice_date := some d,
          notes := notes }
      else c),
    uploadLog := st.uploadLog }

/-- Embeds `delete_carrier_data(carrier_name, cycle_period)`: physically remove the
key's shipment rows and checklist rows, and soft-delete the matching upload
log entries (status `'Deleted'` plus `deleted_date`), keeping them for the
audit trail. -/
def delete_carrier_data (st : SysState) (carrier_name cycle_period : String)
    (now : Nat) : SysState :=
  { shipments :=
      { st.shipments with rows := st.shipments.rows.filter (fun r =>
          !(r.carrier = carrier_name && r.cycle_period = cycle_period)) },
    checklist := st.checklist.filter (fun c =>
      !(c.carrier = carrier_name && c.cycle_period = cycle_period)),
    uploadLog := st.uploadLog.map (fun e =>
      if e.carrier = carrier_name && e.cycle_period = cycle_period then
        { e with status := "Deleted", deleted_date := some now }
      else e) }

/-- Embeds `delete_client_cycle(client_name, cycle_period)`: remove the client's
rows across all carriers; the upload log is left untouched. -/
def delete_client_cycle (st : SysState) (client_name cycle_period : String) : SysState :=
  { shipments :=
      { st.shipments with rows := st.shipments.rows.filter (fun r =>
          !(r.client = client_name && r.cycle_period = cycle_period)) },
    checklist := st.checklist.filter (fun c =>
      !(c.client = client_name && c.cycle_period = cycle_period)),
    uploadLog := st.uploadLog }

/-- The freshly initialised state: all three sheets exist with headers and
no rows (`init_excel_files`). -/
def emptySysState : SysState := ⟨⟨STANDARD_COLUMNS, []⟩, [], []⟩

/-- A pre-existing stored record: client "X", carrier "A", cycle "c1",
cost 10, billable 15. -/
def seedRec : ShipmentRecord :=
  { carrier := "A", client := "X", tracking_number := "t0", service_type := "",
    cost := some 10, billable_amount := some 15, weight := none, zone := "",
    ship_date := none, delivery_date := none, invoice_status := "Ready to Bill",
    invoice_number := "", invoice_date := none, cycle_period := "c1",
    upload_timestamp := 1, file_hash := "h1" }

/-- A consistent non-empty state: `seedRec` in the store and its matching
aggregate in the checklist. -/
def seedState : SysState :=
  ⟨⟨STANDARD_COLUMNS, [seedRec]⟩, [mkAggRow ("X", "A", "c1") 1 10 15], []⟩

/-- Extends `seedState` with the upload-log entry of the ingestion that
produced `seedRec` (hash "h1", key ("A", "c1"), Active). -/
def seedStateLedger : SysState :=
  { seedState with uploadLog := [mkLogEntry "a.xlsx" "h1" 1 1 "A" "c1" none] }

/-- A one-row valid upload: client "Y", cost 5, billable 9. -/
def smallFile : InputFile :=
  { filename := "b.xlsx",
    frame := { headers := ["Customer", "Total Cost", "Bill Amount"],
               rows := [[.str "Y", .num 5, .num 9]] },
    hash := "hB" }

/-- The same file content re-saved under another name: its hash equals the
hash "h1" already present on the active ledger entry of `seedStateLedger`. -/
def dupHashFile : InputFile :=
  { smallFile with filename := "copy.xlsx", hash := "h1" }

/-- The C6 scenario file: headers Customer/Total Cost/Bill Amount/Tracking
ID, rows cost [10, 20, 0] and billable [15, 25, 0]. -/
def scenarioFile : InputFile :=
  { filename := "acme.xlsx",
    frame := { headers := ["Customer", "Total Cost", "Bill Amount", "Tracking ID"],
               rows := [[.str "X", .num 10, .num 15, .str "T1"],
                        [.str "X", .num 20, .num 25, .str "T2"],
                        [.str "X", .num 0, .num 0, .str "T3"]] },
    hash := "h6" }

/-- C1: the claim states that every successful non-replace ingestion into a
non-empty store keeps every previously stored record.  The manual-upload
path `process_carrier_file` refutes it: ingesting a valid one-row file for
a fresh key ("B", "c2") into the non-empty `seedState` succeeds (1 record
imported) yet the resulting store no longer contains `seedRec` — the
mis-indented defaulting loop's `for…else` clause rebinds
`combined_shipments` to the new batch alone, so only 1 row is saved.  (The
path-based `process_file_from_path` would have kept both rows.) -/
theorem C1_process_carrier_file_drops_prior_records :
    (process_carrier_file seedState smallFile "B" "c2" [] false 9).result = .ok 1 ∧
    seedRec ∉ (process_carrier_file seedState smallFile "B" "c2" [] false 9).state.shipments.rows ∧
    (process_carrier_file seedState smallFile "B" "c2" [] false 9).state.shipments.rows.length = 1 ∧
    (process_file_from_path seedState smallFile "B" "c2" false 9).state.shipments.rows.length = 2 := by
  decide

/-- C3: the claim states that after every ingestion each aggregate's totals
match the stored records of its key and that no aggregate exists for a key
without stored records.  Refuted on the code: a successful
`process_carrier_file` ingestion of key ("B", "c2") into the consistent
non-empty `seedState` wipes the stored records of key ("X", "A", "c1")
(the `for…else` slip) while `update_billing_checklist` keeps that key's
aggregate, leaving an aggregate with shipment_count 1 for a key with zero
stored records. -/
theorem C3_store_aggregate_inconsistency :
    (process_carrier_file seedState smallFile "B" "c2" [] false 9).result = .ok 1 ∧
    ((process_carrier_file seedState smallFile "B" "c2" [] false 9).state.shipments.rows.filter
      (fun r => recKey r == ("X", "A", "c1"))).length = 0 ∧
    ((process_carrier_file seedState smallFile "B" "c2" [] false 9).state.checklist.filter
      (fun c => aggKeyOf c == ("X", "A", "c1"))).length = 1 := by
  decide

/-- C2 counterexample: `seedStateLedger` has an active ledger entry with
hash "h1" under key ("A", "c1"); ingesting `dupHashFile` (same hash "h1")
under the different key ("B", "c1") without replace is *not* rejected — it
imports 1 record and grows the store — because no code path ever consults
`file_hash` for deduplication. -/
theorem C2_duplicate_hash_not_rejected :
    (seedStateLedger.uploadLog.filter (fun e =>
      e.file_hash = dupHashFile.hash && e.status = "Active")).length = 1 ∧
    (process_file_from_path seedStateLedger dupHashFile "B" "c1" false 9).result = .ok 1 ∧
    (process_file_from_path seedStateLedger dupHashFile "B" "c1" false 9).state.shipments.rows.length =
      seedStateLedger.shipments.rows.length + 1 := by
  decide

/-- C2 (amended): without replace, an ingestion is rejected — with the
"Data already exists" failure carrying the existing record count, and with
the state unchanged — exactly when the shipment store already holds records
for the same (carrier, cycle_period) logical key; the content hash is
recorded on ledger entries but never consulted, so identical content under
a different key is imported (see the counterexample). -/
theorem C2_logical_key_rejection (st : SysState) (file : InputFile)
    (carrier_name cycle_period : String) (now : Nat)
    (h : (check_existing_data carrier_name cycle_period st).1 = true) :
    process_file_from_path st file carrier_name cycle_period false now =
      ⟨st, .error (.dataAlreadyExists (check_existing_data carrier_name cycle_period st).2)⟩ := by
  simp [process_file_from_path, h]

/-- C2 witness: the amended rejection at a concrete input. -/
theorem C2_logical_key_rejection_witness :
    (check_existing_data "A" "c1" seedStateLedger).1 = true ∧
    process_file_from_path seedStateLedger dupHashFile "A" "c1" false 9 =
      ⟨seedStateLedger, .error (.dataAlreadyExists
        (check_existing_data "A" "c1" seedStateLedger).2)⟩ :=
  ⟨by decide, C2_logical_key_rejection seedStateLedger dupHashFile "A" "c1" 9 (by decide)⟩

/-- C6: the end-to-end scenario.  The auto-detected column map resolves
Customer→client, Total Cost→cost, Bill Amount→billable_amount,
Tracking ID→tracking_number; the 0/0 row is dropped; ingesting
`scenarioFile` for carrier "Acme", cycle "2024-01" into the fresh state
imports exactly 2 records; the resulting checklist is the single aggregate
with total_cost 30, total_billable 40, profit 10 and profit_margin 25.00. -/
theorem C6_end_to_end_scenario :
    (List.lookup "Customer" (autoColumnMap scenarioFile.frame.headers) = some "client" ∧
     List.lookup "Total Cost" (autoColumnMap scenarioFile.frame.headers) = some "cost" ∧
     List.lookup "Bill Amount" (autoColumnMap scenarioFile.frame.headers) = some "billable_amount" ∧
     List.lookup "Tracking ID" (autoColumnMap scenarioFile.frame.headers) = some "tracking_number") ∧
    (process_file_from_path emptySysState scenarioFile "Acme" "2024-01" false 7).result = .ok 2 ∧
    (process_file_from_path emptySysState scenarioFile "Acme" "2024-01" false 7).state.shipments.rows.length = 2 ∧
    (process_file_from_path emptySysState scenarioFile "Acme" "2024-01" false 7).state.checklist =
      [mkAggRow ("X", "Acme", "2024-01") 2 30 40] ∧
    (mkAggRow ("X", "Acme", "2024-01") 2 30 40).total_cost = 30 ∧
    (mkAggRow ("X", "Acme", "2024-01") 2 30 40).total_billable = 40 ∧
    (mkAggRow ("X", "Acme", "2024-01") 2 30 40).profit = 10 ∧
    (mkAggRow ("X", "Acme", "2024-01") 2 30 40).profit_margin = 25 := by
  decide

/-- C10: with an empty shipment store, `process_carrier_file` always
returns a failure result and leaves the whole state untouched.  With no
stored rows there is no duplicate to reject and nothing to replace, so the
attempt reaches the legacy-schema defaulting loop, whose body dereferences
`existing_standardized` — a name bound only inside the skipped
`if not existing_shipments.empty:` branch — raising a `NameError` that the
blanket `except` turns into a failure return; the earlier unsupported-format
/ missing-columns / no-valid-records returns are failures as well, and every
mutation of the three tables sits after the faulting line. -/
theorem C10_empty_store_manual_upload_fails (st : SysState) (file : InputFile)
    (carrier_name cycle_period : String) (column_mapping : List (String × String))
    (replace_existing : Bool) (now : Nat)
    (h : st.shipments.rows = []) :
    (process_carrier_file st file carrier_name cycle_period column_mapping
      replace_existing now).state = st ∧
    ∃ e, (process_carrier_file st file carrier_name cycle_period column_mapping
      replace_existing now).result = .error e := by
  have hhe : check_existing_data carrier_name cycle_period st = (false, 0) := by
    simp [check_existing_data, h]
  have hempty : st.shipments.rows.isEmpty = true := by simp [h]
  have hcc : ∀ batch, carrierCombine st.shipments batch = .error .pythonNameError := by
    intro batch
    simp [carrierCombine, hempty]
  suffices hs : ∃ e, process_carrier_file st file carrier_name cycle_period column_mapping
      replace_existing now = ⟨st, .error e⟩ by
    obtain ⟨e, he⟩ := hs
    rw [he]
    exact ⟨rfl, e, rfl⟩
  unfold process_carrier_file
  rw [hhe]
  simp only [hcc, Bool.and_false, Bool.false_and, Bool.not_false, Bool.false_eq_true,
    if_false, ite_false]
  split
  · exact ⟨_, rfl⟩
  · split
    · exact ⟨_, rfl⟩
    · split
      · exact ⟨_, rfl⟩
      · exact ⟨_, rfl⟩

/-- C10 witness: the failure at a concrete input (a well-formed file, empty
store). -/
theorem C10_empty_store_manual_upload_fails_witness :
    emptySysState.shipments.rows = [] ∧
    ((process_carrier_file emptySysState smallFile "B" "c2" [] false 9).state = emptySysState ∧
     ∃ e, (process_carrier_file emptySysState smallFile "B" "c2" [] false 9).result = .error e) :=
  ⟨rfl, C10_empty_store_manual_upload_fails emptySysState smallFile "B" "c2" [] false 9 rfl⟩

/-- A list is pointwise related to its image under a map. -/
theorem forall2_map_self {α β : Type} (f : α → β) (R : α → β → Prop)
    (h : ∀ a, R a (f a)) : ∀ l : List α, List.Forall₂ R l (l.map f)
  | [] => .nil
  | a :: l => .cons (h a) (forall2_map_self f R h l)

/-- C7: `mark_client_billed` is a single bulk cross-carrier transition:
every checklist row (BillingAggregate) matching (client, cycle_period) gets
invoice_status Billed, the supplied invoice number and date and the notes;
every shipment row matching (client, cycle_period) gets Billed plus the
invoice number and date; rows that do not match are returned unchanged, and
the upload log is untouched.  (A `None` invoice date defaults to today.) -/
theorem C7_mark_client_billed_bulk (st : SysState)
    (client cycle_period invoice_number : String) (invoice_date : Option Nat)
    (notes : String) (now : Nat) :
    List.Forall₂ (fun c c' =>
      if c.client = client ∧ c.cycle_period = cycle_period then
        c' = { c with
               invoice_status := "Billed",
               invoice_number := invoice_number,
               invoice_date := some (invoice_date.getD now),
               notes := notes }
      else c' = c)
      st.checklist
      (mark_client_billed st client cycle_period invoice_number invoice_date notes now).checklist ∧
    List.Forall₂ (fun r r' =>
      if r.client = client ∧ r.cycle_period = cycle_period then
        r' = { r with
               invoice_status := "Billed",
               invoice_number := invoice_number,
               invoice_date := some (invoice_date.getD now) }
      else r' = r)
      st.shipments.rows
      (mark_client_billed st client cycle_period invoice_number invoice_date notes now).shipments.rows ∧
    (mark_client_billed st client cycle_period invoice_number invoice_date notes now).uploadLog =
      st.uploadLog := by
  refine ⟨?_, ?_, rfl⟩
  · apply forall2_map_self
    intro c
    by_cases hc : c.client = client ∧ c.cycle_period = cycle_period
    · simp [hc.1, hc.2, hc]
    · have : (decide (c.client = client) && decide (c.cycle_period = cycle_period)) = false := by
        rcases not_and_or.mp hc with h1 | h1 <;> simp [h1]
      simp [this, hc]
  · apply forall2_map_self
    intro r
    by_cases hr : r.client = client ∧ r.cycle_period = cycle_period
    · simp [hr.1, hr.2, hr]
    · have : (decide (r.client = client) && decide (r.cycle_period = cycle_period)) = false := by
        rcases not_and_or.mp hr with h1 | h1 <;> simp [h1]
      simp [this, hr]

/-- The derived-field invariant of a billing aggregate: profit is exactly
total_billable − total_cost, and whenever total_billable is nonzero the
margin is `round(profit / total_billable * 100, 2)`. -/
def aggInvariant (c : ChecklistRow) : Prop :=
  c.profit = qSub c.total_billable c.total_cost ∧
  (c.total_billable ≠ 0 →
    c.profit_margin = roundTo2 (qMul (qDiv c.profit c.total_billable) ⟨100, 1⟩))

instance (c : ChecklistRow) : Decidable (aggInvariant c) := by
  unfold aggInvariant
  infer_instance

/-- A freshly created aggregate satisfies the derived-field invariant by
construction. -/
theorem mkAggRow_invariant (k : String × String × String) (cnt : Nat) (c b : Q) :
    aggInvariant (mkAggRow k cnt c b) :=
  ⟨rfl, fun _ => rfl⟩

/-- One `applyGroup` step preserves the derived-field invariant. -/
theorem applyGroup_invariant (batch : List ShipmentRecord)
    (k : String × String × String) (cl : List ChecklistRow)
    (h : ∀ c ∈ cl, aggInvariant c) :
    ∀ c ∈ applyGroup batch cl k, aggInvariant c := by
  unfold applyGroup
  cases hfind : cl.find? (fun row => aggKeyOf row == k) with
  | none =>
      intro c hc
      rcases List.mem_append.mp hc with h1 | h2
      · exact h c h1
      · rcases List.mem_singleton.mp h2 with rfl
        exact mkAggRow_invariant _ _ _ _
  | some fst =>
      intro c hc
      rcases List.mem_map.mp hc with ⟨a, ha, rfl⟩
      by_cases hk : (aggKeyOf a == k) = true
      · simp only [hk, if_true]
        exact ⟨rfl, fun _ => rfl⟩
      · simp only [hk, if_false]
        exact h a ha

/-- C8: the derived-field invariant holds for every aggregate after
`update_billing_checklist`, whether the aggregate was just created for a new
key or additively updated: the update recomputes profit and margin from the
new totals in both branches. -/
theorem C8_aggregate_derived_fields (batch : List ShipmentRecord)
    (cl : List ChecklistRow) (h : ∀ c ∈ cl, aggInvariant c) :
    ∀ c ∈ update_billing_checklist batch cl, aggInvariant c := by
  unfold update_billing_checklist
  have key : ∀ (ks : List (String × String × String)) (cl0 : List ChecklistRow),
      (∀ c ∈ cl0, aggInvariant c) →
      ∀ c ∈ ks.foldl (applyGroup batch) cl0, aggInvariant c := by
    intro ks
    induction ks with
    | nil => intro cl0 h0; simpa using h0
    | cons k ks ih =>
        intro cl0 h0
        exact ih (applyGroup batch cl0 k) (applyGroup_invariant batch k cl0 h0)
  exact key (groupKeys batch) cl h

/-- C8 witness: invariant preservation at a concrete input (an existing
aggregate updated additively and a new key created in the same batch). -/
theorem C8_aggregate_derived_fields_witness :
    (∀ c ∈ [mkAggRow ("X", "A", "c1") 1 10 15], aggInvariant c) ∧
    ∀ c ∈ update_billing_checklist [seedRec, { seedRec with client := "Z", cost := some 4 }]
      [mkAggRow ("X", "A", "c1") 1 10 15], aggInvariant c :=
  ⟨by decide,
   C8_aggregate_derived_fields
     [seedRec, { seedRec with client := "Z", cost := some 4 }]
     [mkAggRow ("X", "A", "c1") 1 10 15] (by decide)⟩

/-- Total cost of a batch (`sum` over its cost column). -/
def batchCost (l : List ShipmentRecord) : Q := sumQ (l.map (fun r => r.cost.getD 0))

/-- Total billable of a batch. -/
def batchBill (l : List ShipmentRecord) : Q := sumQ (l.map (fun r => r.billable_amount.getD 0))

/-- Dedup of a nonempty constant list is the singleton. -/
theorem dedup_const {α : Type} [DecidableEq α] (k : α) :
    ∀ (l : List α), (∀ x ∈ l, x = k) → l ≠ [] → l.dedup = [k] := by
  intro l
  induction l with
  | nil => exact fun _ h0 => absurd rfl h0
  | cons a t ih =>
      intro h _
      have ha : a = k := h a (List.mem_cons_self a t)
      subst ha
      cases t with
      | nil => simp
      | cons b t2 =>
          have hmem : a ∈ b :: t2 := by
            have hb : b = a := h b (by simp)
            simp [hb]
          rw [List.dedup_cons_of_mem hmem]
          exact ih (fun x hx => h x (List.mem_cons_of_mem _ hx)) (by simp)

/-- A nonempty batch whose records all carry the key `k` has `[k]` as its
group-key list. -/
theorem groupKeys_const (C : List ShipmentRecord) (k : String × String × String)
    (hC : ∀ r ∈ C, recKey r = k) (h0 : C ≠ []) : groupKeys C = [k] := by
  unfold groupKeys
  have h1 : (C.map recKey).dedup = [k] := by
    apply dedup_const
    · intro x hx
      rcases List.mem_map.mp hx with ⟨r, hr, rfl⟩
      exact hC r hr
    · simp [h0]
  rw [h1]
  rfl

/-- Filtering a batch by a key all its records carry is the identity. -/
theorem filter_key_all (C : List ShipmentRecord) (k : String × String × String)
    (hC : ∀ r ∈ C, recKey r = k) : C.filter (fun r => recKey r == k) = C :=
  List.filter_eq_self.mpr (fun r hr => by simp [hC r hr])

/-- Mapping a function that fixes every element is the identity. -/
theorem map_id_of_fixed {α : Type} (f : α → α) :
    ∀ (l : List α), (∀ a ∈ l, f a = a) → l.map f = l
  | [], _ => rfl
  | a :: l, h => by
      rw [List.map_cons, h a (List.mem_cons_self a l),
        map_id_of_fixed f l (fun b hb => h b (List.mem_cons_of_mem a hb))]

/-- C5: ingesting batch A and then batch B for the same key into a
checklist that does not yet hold the key yields exactly one aggregate for
the key, whose shipment_count is count(A)+count(B), total_cost is
cost(A)+cost(B) and total_billable is billable(A)+billable(B) — the first
update creates the entry (status Ready to Bill, empty invoice fields, as
`mkAggRow` spells out) and the second strictly adds to it; every other
checklist row is left exactly as it was. -/
theorem C5_aggregate_additivity (cl : List ChecklistRow)
    (A B : List ShipmentRecord) (k : String × String × String)
    (hA : ∀ r ∈ A, recKey r = k) (hB : ∀ r ∈ B, recKey r = k)
    (hA0 : A ≠ []) (hB0 : B ≠ [])
    (hcl : ∀ c ∈ cl, aggKeyOf c ≠ k) :
    ((update_billing_checklist B (update_billing_checklist A cl)).filter
       (fun c => aggKeyOf c == k)) =
      [mkAggRow k (A.length + B.length) (qAdd (batchCost A) (batchCost B))
        (qAdd (batchBill A) (batchBill B))] ∧
    ((update_billing_checklist B (update_billing_checklist A cl)).filter
       (fun c => !(aggKeyOf c == k))) = cl := by
  have hcntA : grpCount A k = A.length := by
    unfold grpCount
    rw [filter_key_all A k hA]
  have hcostA : grpCost A k = batchCost A := by
    unfold grpCost batchCost
    rw [filter_key_all A k hA]
  have hbillA : grpBill A k = batchBill A := by
    unfold grpBill batchBill
    rw [filter_key_all A k hA]
  have hcntB : grpCount B k = B.length := by
    unfold grpCount
    rw [filter_key_all B k hB]
  have hcostB : grpCost B k = batchCost B := by
    unfold grpCost batchCost
    rw [filter_key_all B k hB]
  have hbillB : grpBill B k = batchBill B := by
    unfold grpBill batchBill
    rw [filter_key_all B k hB]
  have hfindcl : cl.find? (fun row => aggKeyOf row == k) = none :=
    List.find?_eq_none.mpr (fun c hc => by simp [hcl c hc])
  have step1 : update_billing_checklist A cl =
      cl ++ [mkAggRow k A.length (batchCost A) (batchBill A)] := by
    unfold update_billing_checklist
    rw [groupKeys_const A k hA hA0]
    show applyGroup A cl k = _
    unfold applyGroup
    rw [hfindcl, hcntA, hcostA, hbillA]
  have hkeyRowA : aggKeyOf (mkAggRow k A.length (batchCost A) (batchBill A)) = k := rfl
  have step2 : update_billing_checklist B (cl ++ [mkAggRow k A.length (batchCost A) (batchBill A)]) =
      cl ++ [mkAggRow k (A.length + B.length) (qAdd (batchCost A) (batchCost B))
        (qAdd (batchBill A) (batchBill B))] := by
    unfold update_billing_checklist
    rw [groupKeys_const B k hB hB0]
    show applyGroup B (cl ++ [mkAggRow k A.length (batchCost A) (batchBill A)]) k = _
    unfold applyGroup
    rw [List.find?_append, hfindcl]
    simp only [Option.none_or, List.find?_cons, hkeyRowA, beq_self_eq_true]
    rw [hcntB, hcostB, hbillB]
    rw [List.map_append,
      map_id_of_fixed _ cl (fun c hc => by simp [hcl c hc])]
    simp only [List.map_cons, List.map_nil, hkeyRowA, beq_self_eq_true, if_true]
    rfl
  rw [step1, step2]
  constructor
  · rw [List.filter_append, List.filter_eq_nil_iff.mpr (fun c hc => by simp [hcl c hc])]
    simp
    rfl
  · rw [List.filter_append, List.filter_eq_self.mpr (fun c hc => by simp [hcl c hc])]
    simp
    rfl

/-- A second batch record for the same (client, carrier, cycle) key as
`seedRec`: cost 2, billable 3. -/
def seedRec2 : ShipmentRecord :=
  { seedRec with tracking_number := "t1", cost := some 2, billable_amount := some 3 }

/-- C5 witness: additivity at a concrete input — batch A = [seedRec]
(cost 10, billable 15), batch B = [seedRec2] (cost 2, billable 3), empty
checklist; the single resulting aggregate for the key carries count 2,
cost 12, billable 18. -/
theorem C5_aggregate_additivity_witness :
    ((∀ r ∈ [seedRec], recKey r = ("X", "A", "c1")) ∧
     (∀ r ∈ [seedRec2], recKey r = ("X", "A", "c1")) ∧
     ([seedRec] : List ShipmentRecord) ≠ [] ∧
     ([seedRec2] : List ShipmentRecord) ≠ [] ∧
     (∀ c ∈ ([] : List ChecklistRow), aggKeyOf c ≠ ("X", "A", "c1"))) ∧
    (((update_billing_checklist [seedRec2] (update_billing_checklist [seedRec] [])).filter
        (fun c => aggKeyOf c == ("X", "A", "c1"))) =
      [mkAggRow ("X", "A", "c1") ([seedRec].length + [seedRec2].length)
        (qAdd (batchCost [seedRec]) (batchCost [seedRec2]))
        (qAdd (batchBill [seedRec]) (batchBill [seedRec2]))] ∧
     ((update_billing_checklist [seedRec2] (update_billing_checklist [seedRec] [])).filter
        (fun c => !(aggKeyOf c == ("X", "A", "c1")))) = ([] : List ChecklistRow)) :=
  ⟨⟨by decide, by decide, by decide, by decide, by decide⟩,
   C5_aggregate_additivity [] [seedRec] [seedRec2] ("X", "A", "c1")
     (by decide) (by decide) (by decide) (by decide) (by decide)⟩

/-- The standardised batch an ingestion attempt produces from its file:
clean the frame, auto-detect and rename columns, standardise every row,
then apply the validity filter (null cost/billable dropped first, then
0/0 rows).  Definitionally the value the ingestion paths compute. -/
def standardizedBatch (file : InputFile) (carrier_name cycle_period : String)
    (now : Nat) : List ShipmentRecord :=
  let f := cleanFrame file.frame
  let hs := renameHeaders (autoColumnMap f.headers) f.headers
  filterValid (f.rows.map (standardizeRow carrier_name cycle_period now file.hash hs))

/-- The standardised batch of the manual-upload path: the same pipeline,
except that the optional manual column mapping is applied to the headers
before auto-detection.  Definitionally the value `process_carrier_file`
computes. -/
def standardizedBatchUpload (file : InputFile) (carrier_name cycle_period : String)
    (column_mapping : List (String × String)) (now : Nat) : List ShipmentRecord :=
  let f := cleanFrame file.frame
  let hs0 := renameHeaders column_mapping f.headers
  let hs := renameHeaders (autoColumnMap hs0) hs0
  filterValid (f.rows.map (standardizeRow carrier_name cycle_period now file.hash hs))

/-- The state an ingestion attempt works on once past the duplicate check:
the key's data has been removed when replace was requested and the key
existed, otherwise the state is untouched.  Definitionally the `st1` both
ingestion paths compute. -/
def stateAfterReplaceCheck (st : SysState) (carrier_name cycle_period : String)
    (replace_existing : Bool) : SysState :=
  if replace_existing && (check_existing_data carrier_name cycle_period st).1
    then remove_existing_data carrier_name cycle_period st else st

/-- C9 counterexample: via the manual-upload path on the fresh (empty)
store, the single row of `smallFile` survives the validity filter, yet the
ingestion does not succeed with the surviving count — it fails with the
caught NameError of the mis-scoped defaulting loop — refuting the claim's
clause that an ingestion whose batch has surviving rows succeeds with
records_imported equal to the surviving row count. -/
theorem C9_carrier_fails_despite_surviving_rows :
    standardizedBatchUpload smallFile "B" "c2" [] 9 ≠ [] ∧
    (standardizedBatchUpload smallFile "B" "c2" [] 9).length = 1 ∧
    (process_carrier_file emptySysState smallFile "B" "c2" [] false 9).result ≠
      .ok (standardizedBatchUpload smallFile "B" "c2" [] 9).length ∧
    (process_carrier_file emptySysState smallFile "B" "c2" [] false 9).result =
      .error .pythonNameError := by
  decide

/-- C9 (amended): past the duplicate check, on a supported format whose
mapped columns contain the required three, both ingestion paths fail with
the no-valid-records failure exactly when zero rows survive the two-stage
filter (`filterValid`: drop null cost/billable first, then 0/0 rows).
When rows survive, `process_file_from_path` succeeds reporting exactly the
surviving row count; `process_carrier_file` does so only when the shipment
store still holds rows after the replace-removal step — on an empty store
it fails with the caught NameError instead (never with the no-valid-records
failure). -/
theorem C9_filter_and_empty_failure (st : SysState) (file : InputFile)
    (carrier_name cycle_period : String) (column_mapping : List (String × String))
    (replace_existing : Bool) (now : Nat)
    (hdup : ((check_existing_data carrier_name cycle_period st).1 && !replace_existing) = false) :
    (supportedFormatPath file.filename = true →
      requiredMissing (renameHeaders
        (autoColumnMap (cleanFrame file.frame).headers) (cleanFrame file.frame).headers) = [] →
      (((process_file_from_path st file carrier_name cycle_period replace_existing now).result =
          .error .noValidRecords ↔
        standardizedBatch file carrier_name cycle_period now = []) ∧
       (standardizedBatch file carrier_name cycle_period now ≠ [] →
        (process_file_from_path st file carrier_name cycle_period replace_existing now).result =
          .ok (standardizedBatch file carrier_name cycle_period now).length))) ∧
    (supportedFormatUpload file.filename = true →
      requiredMissing (renameHeaders
        (autoColumnMap (renameHeaders column_mapping (cleanFrame file.frame).headers))
        (renameHeaders column_mapping (cleanFrame file.frame).headers)) = [] →
      (((process_carrier_file st file carrier_name cycle_period column_mapping
           replace_existing now).result = .error .noValidRecords ↔
        standardizedBatchUpload file carrier_name cycle_period column_mapping now = []) ∧
       (standardizedBatchUpload file carrier_name cycle_period column_mapping now ≠ [] →
        (stateAfterReplaceCheck st carrier_name cycle_period replace_existing).shipments.rows ≠ [] →
        (process_carrier_file st file carrier_name cycle_period column_mapping
           replace_existing now).result =
          .ok (standardizedBatchUpload file carrier_name cycle_period column_mapping now).length) ∧
       (standardizedBatchUpload file carrier_name cycle_period column_mapping now ≠ [] →
        (stateAfterReplaceCheck st carrier_name cycle_period replace_existing).shipments.rows = [] →
        (process_carrier_file st file carrier_name cycle_period column_mapping
           replace_existing now).result = .error .pythonNameError))) := by
  constructor
  · intro hfmt hcols
    by_cases hb : standardizedBatch file carrier_name cycle_period now = []
    · have hb2 : filterValid ((cleanFrame file.frame).rows.map
          (standardizeRow carrier_name cycle_period now file.hash
            (renameHeaders (autoColumnMap (cleanFrame file.frame).headers)
              (cleanFrame file.frame).headers))) = [] := hb
      simp [process_file_from_path, hdup, hfmt, hcols, hb, hb2]
    · have hb2 : (filterValid ((cleanFrame file.frame).rows.map
          (standardizeRow carrier_name cycle_period now file.hash
            (renameHeaders (autoColumnMap (cleanFrame file.frame).headers)
              (cleanFrame file.frame).headers)))).isEmpty = false := by
        rw [List.isEmpty_eq_false]
        exact hb
      simp [process_file_from_path, hdup, hfmt, hcols, hb, hb2, standardizedBatch]
      exact hb
  · intro hfmt hcols
    by_cases hb : standardizedBatchUpload file carrier_name cycle_period column_mapping now = []
    · have hb2 : filterValid ((cleanFrame file.frame).rows.map
          (standardizeRow carrier_name cycle_period now file.hash
            (renameHeaders (autoColumnMap (renameHeaders column_mapping (cleanFrame file.frame).headers))
              (renameHeaders column_mapping (cleanFrame file.frame).headers)))) = [] := hb
      simp [process_carrier_file, hdup, hfmt, hcols, hb, hb2]
    · have hb2 : (filterValid ((cleanFrame file.frame).rows.map
          (standardizeRow carrier_name cycle_period now file.hash
            (renameHeaders (autoColumnMap (renameHeaders column_mapping (cleanFrame file.frame).headers))
              (renameHeaders column_mapping (cleanFrame file.frame).headers))))).isEmpty = false := by
        rw [List.isEmpty_eq_false]
        exact hb
      by_cases hrows : (stateAfterReplaceCheck st carrier_name cycle_period
          replace_existing).shipments.rows = []
      · have hrows2 := hrows
        unfold stateAfterReplaceCheck at hrows2
        have hempty : (if replace_existing && (check_existing_data carrier_name cycle_period st).1
            then remove_existing_data carrier_name cycle_period st else st).shipments.rows.isEmpty
            = true := by
          rw [hrows2]
          rfl
        have hcc : carrierCombine
            (if replace_existing && (check_existing_data carrier_name cycle_period st).1
              then remove_existing_data carrier_name cycle_period st else st).shipments
            (filterValid ((cleanFrame file.frame).rows.map
              (standardizeRow carrier_name cycle_period now file.hash
                (renameHeaders (autoColumnMap (renameHeaders column_mapping (cleanFrame file.frame).headers))
                  (renameHeaders column_mapping (cleanFrame file.frame).headers))))) =
            .error .pythonNameError := by
          unfold carrierCombine
          rw [if_pos hempty]
        simp only [Bool.and_eq_true] at hcc
        simp [process_carrier_file, hdup, hfmt, hcols, hb, hb2, hcc, hrows]
      · have hrows2 : (stateAfterReplaceCheck st carrier_name cycle_period
            replace_existing).shipments.rows.isEmpty = false := by
          rw [List.isEmpty_eq_false]
          exact hrows
        unfold stateAfterReplaceCheck at hrows2
        have hnotempty : ¬ ((if replace_existing && (check_existing_data carrier_name cycle_period st).1
            then remove_existing_data carrier_name cycle_period st else st).shipments.rows.isEmpty
            = true) := by
          rw [hrows2]
          simp
        have hcc : carrierCombine
            (if replace_existing && (check_existing_data carrier_name cycle_period st).1
              then remove_existing_data carrier_name cycle_period st else st).shipments
            (filterValid ((cleanFrame file.frame).rows.map
              (standardizeRow carrier_name cycle_period now file.hash
                (renameHeaders (autoColumnMap (renameHeaders column_mapping (cleanFrame file.frame).headers))
                  (renameHeaders column_mapping (cleanFrame file.frame).headers))))) =
            .ok (filterValid ((cleanFrame file.frame).rows.map
              (standardizeRow carrier_name cycle_period now file.hash
                (renameHeaders (autoColumnMap (renameHeaders column_mapping (cleanFrame file.frame).headers))
                  (renameHeaders column_mapping (cleanFrame file.frame).headers))))) := by
          unfold carrierCombine
          rw [if_neg hnotempty]
        simp only [Bool.and_eq_true] at hcc
        simp [process_carrier_file, hdup, hfmt, hcols, hb, hb2, hcc, hrows,
          standardizedBatchUpload]
        exact hb

/-- C9 witness: both sides at a concrete input — ingesting `smallFile`
(one surviving row) for the fresh key ("B", "c2") into the non-empty
`seedState` satisfies the duplicate-check hypothesis, and the conclusion
instantiates with every inner premise concretely true (supported format,
required columns present, surviving batch nonempty, store rows nonempty),
yielding success with count 1 on both paths. -/
theorem C9_filter_and_empty_failure_witness :
    ((check_existing_data "B" "c2" seedState).1 && !false) = false ∧
    ((supportedFormatPath smallFile.filename = true →
      requiredMissing (renameHeaders
        (autoColumnMap (cleanFrame smallFile.frame).headers) (cleanFrame smallFile.frame).headers) = [] →
      (((process_file_from_path seedState smallFile "B" "c2" false 9).result =
          .error .noValidRecords ↔
        standardizedBatch smallFile "B" "c2" 9 = []) ∧
       (standardizedBatch smallFile "B" "c2" 9 ≠ [] →
        (process_file_from_path seedState smallFile "B" "c2" false 9).result =
          .ok (standardizedBatch smallFile "B" "c2" 9).length))) ∧
    (supportedFormatUpload smallFile.filename = true →
      requiredMissing (renameHeaders
        (autoColumnMap (renameHeaders [] (cleanFrame smallFile.frame).headers))
        (renameHeaders [] (cleanFrame smallFile.frame).headers)) = [] →
      (((process_carrier_file seedState smallFile "B" "c2" [] false 9).result =
          .error .noValidRecords ↔
        standardizedBatchUpload smallFile "B" "c2" [] 9 = []) ∧
       (standardizedBatchUpload smallFile "B" "c2" [] 9 ≠ [] →
        (stateAfterReplaceCheck seedState "B" "c2" false).shipments.rows ≠ [] →
        (process_carrier_file seedState smallFile "B" "c2" [] false 9).result =
          .ok (standardizedBatchUpload smallFile "B" "c2" [] 9).length) ∧
       (standardizedBatchUpload smallFile "B" "c2" [] 9 ≠ [] →
        (stateAfterReplaceCheck seedState "B" "c2" false).shipments.rows = [] →
        (process_carrier_file seedState smallFile "B" "c2" [] false 9).result =
          .error .pythonNameError)))) :=
  ⟨by decide,
   C9_filter_and_empty_failure seedState smallFile "B" "c2" [] false 9 (by decide)⟩

/-- The group keys of a batch are pairwise distinct. -/
theorem groupKeys_nodup (batch : List ShipmentRecord) : (groupKeys batch).Nodup := by
  unfold groupKeys
  exact ((List.perm_insertionSort _ _).nodup_iff).mpr (List.nodup_dedup _)

/-- Folding the aggregate update over distinct group keys, starting from a
checklist with no row for the (carrier_name, cycle_period) key, leaves
every row of that key equal to a freshly built aggregate of the new batch:
the update branch never touches such a row (its key would have had to be
seen twice), and the create branch builds exactly `mkAggRow` of the batch
group. -/
theorem fold_fresh_key (batch : List ShipmentRecord)
    (carrier_name cycle_period : String) :
    ∀ (ks : List (String × String × String)), ks.Nodup →
    ∀ (cl : List ChecklistRow),
      (∀ c ∈ cl, c.carrier = carrier_name → c.cycle_period = cycle_period →
        (c = mkAggRow (aggKeyOf c) (grpCount batch (aggKeyOf c))
          (grpCost batch (aggKeyOf c)) (grpBill batch (aggKeyOf c)) ∧ aggKeyOf c ∉ ks)) →
    ∀ c ∈ ks.foldl (applyGroup batch) cl,
      c.carrier = carrier_name → c.cycle_period = cycle_period →
      c = mkAggRow (aggKeyOf c) (grpCount batch (aggKeyOf c))
        (grpCost batch (aggKeyOf c)) (grpBill batch (aggKeyOf c)) := by
  intro ks
  induction ks with
  | nil =>
      intro _ cl h c hc h1 h2
      exact (h c hc h1 h2).1
  | cons k ks ih =>
      intro hnd cl h
      rw [List.foldl_cons]
      rcases List.nodup_cons.mp hnd with ⟨hk_notin, hnd2⟩
      apply ih hnd2
      intro c hc h1 h2
      have hfindcases := hc
      unfold applyGroup at hfindcases
      cases hfind : cl.find? (fun row => aggKeyOf row == k) with
      | none =>
          rw [hfind] at hfindcases
          rcases List.mem_append.mp hfindcases with hmem | hmem
          · obtain ⟨heq, hnotin⟩ := h c hmem h1 h2
            exact ⟨heq, fun hk => hnotin (List.mem_cons_of_mem _ hk)⟩
          · rcases List.mem_singleton.mp hmem with rfl
            have hk : aggKeyOf (mkAggRow k (grpCount batch k)
                (grpCost batch k) (grpBill batch k)) = k := rfl
            constructor
            · rw [hk]
            · rw [hk]
              exact hk_notin
      | some fst =>
          rw [hfind] at hfindcases
          simp only [List.mem_map] at hfindcases
          obtain ⟨a, ha, hfa⟩ := hfindcases
          by_cases hak : (aggKeyOf a == k) = true
          · rw [if_pos hak] at hfa
            have hcar : c.carrier = a.carrier := by rw [← hfa]
            have hcyc : c.cycle_period = a.cycle_period := by rw [← hfa]
            obtain ⟨_, hnotin⟩ := h a ha (hcar ▸ h1) (hcyc ▸ h2)
            exact absurd (List.mem_cons_self k ks) (by rw [← (beq_iff_eq.mp hak)] at *; exact hnotin)
          · rw [if_neg hak] at hfa
            rcases hfa with rfl
            obtain ⟨heq, hnotin⟩ := h a ha h1 h2
            exact ⟨heq, fun hk => hnotin (List.mem_cons_of_mem _ hk)⟩

/-- Applying `update_billing_checklist` on a checklist holding no row for the
(carrier_name, cycle_period) key creates every row of that key afresh from
the batch. -/
theorem update_fresh_key (batch : List ShipmentRecord)
    (carrier_name cycle_period : String) (cl : List ChecklistRow)
    (hcl : ∀ c ∈ cl, ¬(c.carrier = carrier_name ∧ c.cycle_period = cycle_period)) :
    ∀ c ∈ update_billing_checklist batch cl,
      c.carrier = carrier_name → c.cycle_period = cycle_period →
      c = mkAggRow (aggKeyOf c) (grpCount batch (aggKeyOf c))
        (grpCost batch (aggKeyOf c)) (grpBill batch (aggKeyOf c)) := by
  unfold update_billing_checklist
  apply fold_fresh_key batch carrier_name cycle_period (groupKeys batch) (groupKeys_nodup batch)
  intro c hc h1 h2
  exact absurd ⟨h1, h2⟩ (hcl c hc)

/-- With replace requested and existing records for the key, an ingestion
attempt either fails after the removal step or succeeds with the removed
state extended by the new batch, its checklist update and one new log
entry. -/
theorem process_replace_cases (st : SysState) (file : InputFile)
    (carrier_name cycle_period : String) (now : Nat)
    (hhas : (check_existing_data carrier_name cycle_period st).1 = true) :
    (∃ e, process_file_from_path st file carrier_name cycle_period true now =
      ⟨remove_existing_data carrier_name cycle_period st, .error e⟩) ∨
    process_file_from_path st file carrier_name cycle_period true now =
      ⟨{ shipments := ⟨STANDARD_COLUMNS,
           combineAppend (remove_existing_data carrier_name cycle_period st).shipments
             (standardizedBatch file carrier_name cycle_period now)⟩,
         checklist := update_billing_checklist
           (standardizedBatch file carrier_name cycle_period now)
           (remove_existing_data carrier_name cycle_period st).checklist,
         uploadLog := (remove_existing_data carrier_name cycle_period st).uploadLog ++
           [mkLogEntry file.filename file.hash now
             (standardizedBatch file carrier_name cycle_period now).length
             carrier_name cycle_period (some file.filename)] },
       .ok (standardizedBatch file carrier_name cycle_period now).length⟩ := by
  unfold process_file_from_path standardizedBatch
  simp only [hhas, Bool.not_true, Bool.and_false, Bool.false_eq_true, if_false, ite_false,
    Bool.true_and, if_true, ite_true]
  split
  · exact .inl ⟨_, rfl⟩
  · split
    · exact .inl ⟨_, rfl⟩
    · split
      · exact .inl ⟨_, rfl⟩
      · exact .inr rfl

/-- C4 (amended): for every replace ingestion via the path-based entry
point when records exist for the (carrier, cycle_period) key (and the
persisted store schema carries the two key columns), all ShipmentRecords
and every BillingAggregate for that key are deleted before the new batch is
applied — afterwards the key's store rows all come from the new batch and
the key's checklist rows are freshly built batch aggregates — while the
prior upload-ledger entries are left untouched at the front of the ledger
(in particular still status Active, no deleted_timestamp — they are *not*
flipped to Deleted; only the separate `delete_carrier_data` operation does
that) and at most one new Active entry is appended, so entries are never
physically removed. -/
theorem C4_replace_semantics (st : SysState) (file : InputFile)
    (carrier_name cycle_period : String) (now : Nat)
    (hhas : (check_existing_data carrier_name cycle_period st).1 = true)
    (hcar : st.shipments.cols.contains "carrier" = true)
    (hcyc : st.shipments.cols.contains "cycle_period" = true) :
    (∃ tail, (process_file_from_path st file carrier_name cycle_period true now).state.uploadLog =
        st.uploadLog ++ tail ∧
      ∀ e ∈ tail, e.status = "Active" ∧ e.deleted_date = none) ∧
    (∀ r ∈ (process_file_from_path st file carrier_name cycle_period true now).state.shipments.rows,
      r.carrier = carrier_name → r.cycle_period = cycle_period →
      r ∈ standardizedBatch file carrier_name cycle_period now) ∧
    (∀ c ∈ (process_file_from_path st file carrier_name cycle_period true now).state.checklist,
      c.carrier = carrier_name → c.cycle_period = cycle_period →
      c = mkAggRow (aggKeyOf c)
        (grpCount (standardizedBatch file carrier_name cycle_period now) (aggKeyOf c))
        (grpCost (standardizedBatch file carrier_name cycle_period now) (aggKeyOf c))
        (grpBill (standardizedBatch file carrier_name cycle_period now) (aggKeyOf c))) := by
  have hremcl : ∀ c ∈ (remove_existing_data carrier_name cycle_period st).checklist,
      ¬(c.carrier = carrier_name ∧ c.cycle_period = cycle_period) := by
    intro c hc hand
    have := (List.mem_filter.mp hc).2
    simp [hand.1, hand.2] at this
  have hremrows : ∀ r ∈ (remove_existing_data carrier_name cycle_period st).shipments.rows,
      ¬(r.carrier = carrier_name ∧ r.cycle_period = cycle_period) := by
    intro r hr hand
    have := (List.mem_filter.mp hr).2
    simp [hand.1, hand.2] at this
  rcases process_replace_cases st file carrier_name cycle_period now hhas with ⟨e, heq⟩ | heq
  · rw [heq]
    refine ⟨⟨[], by simp [remove_existing_data], by simp⟩, ?_, ?_⟩
    · intro r hr h1 h2
      exact absurd ⟨h1, h2⟩ (hremrows r hr)
    · intro c hc h1 h2
      exact absurd ⟨h1, h2⟩ (hremcl c hc)
  · rw [heq]
    refine ⟨⟨[mkLogEntry file.filename file.hash now
        (standardizedBatch file carrier_name cycle_period now).length
        carrier_name cycle_period (some file.filename)],
        by simp [remove_existing_data], by simp [mkLogEntry]⟩, ?_, ?_⟩
    · intro r hr h1 h2
      unfold combineAppend at hr
      by_cases hemp : (remove_existing_data carrier_name cycle_period st).shipments.rows.isEmpty = true
      · rw [if_pos hemp] at hr
        exact hr
      · rw [if_neg hemp] at hr
        rcases List.mem_append.mp hr with hmem | hmem
        · exfalso
          unfold standardizeExisting at hmem
          rcases List.mem_map.mp hmem with ⟨r0, hr0, rfl⟩
          have hc1 : (backfillRow (remove_existing_data carrier_name cycle_period st).shipments.cols r0).carrier
              = r0.carrier := by
            simp only [backfillRow]
            rw [if_pos]
            exact hcar
          have hc2 : (backfillRow (remove_existing_data carrier_name cycle_period st).shipments.cols r0).cycle_period
              = r0.cycle_period := by
            simp only [backfillRow]
            rw [if_pos]
            exact hcyc
          exact hremrows r0 hr0 ⟨by rw [← hc1]; exact h1, by rw [← hc2]; exact h2⟩
        · exact hmem
    · intro c hc h1 h2
      exact update_fresh_key (standardizedBatch file carrier_name cycle_period now)
        carrier_name cycle_period
        (remove_existing_data carrier_name cycle_period st).checklist hremcl c hc h1 h2

/-- C4 witness: replace ingestion at a concrete input — `seedStateLedger`
holds one record and one Active ledger entry for key ("A", "c1");
re-ingesting `smallFile` for that key with replace succeeds and the stated
conjunction holds. -/
theorem C4_replace_semantics_witness :
    ((check_existing_data "A" "c1" seedStateLedger).1 = true ∧
     seedStateLedger.shipments.cols.contains "carrier" = true ∧
     seedStateLedger.shipments.cols.contains "cycle_period" = true) ∧
    ((∃ tail, (process_file_from_path seedStateLedger smallFile "A" "c1" true 9).state.uploadLog =
        seedStateLedger.uploadLog ++ tail ∧
      ∀ e ∈ tail, e.status = "Active" ∧ e.deleted_date = none) ∧
    (∀ r ∈ (process_file_from_path seedStateLedger smallFile "A" "c1" true 9).state.shipments.rows,
      r.carrier = "A" → r.cycle_period = "c1" →
      r ∈ standardizedBatch smallFile "A" "c1" 9) ∧
    (∀ c ∈ (process_file_from_path seedStateLedger smallFile "A" "c1" true 9).state.checklist,
      c.carrier = "A" → c.cycle_period = "c1" →
      c = mkAggRow (aggKeyOf c)
        (grpCount (standardizedBatch smallFile "A" "c1" 9) (aggKeyOf c))
        (grpCost (standardizedBatch smallFile "A" "c1" 9) (aggKeyOf c))
        (grpBill (standardizedBatch smallFile "A" "c1" 9) (aggKeyOf c)))) :=
  ⟨⟨by decide, by decide, by decide⟩,
   C4_replace_semantics seedStateLedger smallFile "A" "c1" 9 (by decide) (by decide) (by decide)⟩

/-- C4 counterexample: a concrete replace ingestion for key ("A", "c1")
with a prior Active ledger entry for that key succeeds, yet the prior entry
survives verbatim (still Active, no deleted_timestamp) and no ledger entry
is flipped to Deleted — refuting the claim that replace flips every prior
ledger entry of the key to status=Deleted with a deleted_timestamp. -/
theorem C4_replace_leaves_ledger_active :
    (process_file_from_path seedStateLedger smallFile "A" "c1" true 9).result = .ok 1 ∧
    mkLogEntry "a.xlsx" "h1" 1 1 "A" "c1" none ∈
      (process_file_from_path seedStateLedger smallFile "A" "c1" true 9).state.uploadLog ∧
    ((process_file_from_path seedStateLedger smallFile "A" "c1" true 9).state.uploadLog.filter
      (fun e => e.status = "Deleted")).length = 0 := by
  decide
